import Mathlib

/-!
Verification of the authorization-and-entity-resolution gateway of the
Polytopia ELO bot, embedded shallowly from `src/bot.py` and
`src/modules/api.py`.

External collaborators (the discord transport, the tenant settings module,
the credential store `ApiApplication.authenticate` and the peewee
persistence layer) are modelled as explicit environment parameters, as the
specification treats them as consumed capabilities.
-/

namespace Polybot

/-- A resolved discord member identity (`discord.Member`), reduced to its
stable identifier. -/
structure Member where
  id : Nat
deriving DecidableEq, Repr

/-- Possible outcomes of `guild.fetch_member` in discord.py: success,
`discord.NotFound` (a subclass of `discord.HTTPException`), some other
`discord.HTTPException` (e.g. a transient 5xx / rate-limit failure), or a
failure outside the `discord.HTTPException` class. -/
inductive FetchResult where
  | ok (m : Member)
  | notFound
  | httpErr
  | otherErr
deriving DecidableEq, Repr

/-- A FastAPI `HTTPException`: status code, detail string, and the optional
`WWW-Authenticate` response header. -/
structure HTTPExc where
  status : Nat
  detail : String
  wwwAuthenticate : Option String
deriving DecidableEq, Repr

/-- The outcome of running an API handler: a returned value, a raised
`fastapi.HTTPException`, or an exception that no handler converts (which the
framework surfaces as a 500). -/
inductive ApiResult (α : Type) where
  | ok (v : α)
  | httpError (e : HTTPExc)
  | uncaught (msg : String)
deriving DecidableEq, Repr

/-- A JSON value, the shape of API response bodies. -/
inductive Json where
  | num (n : Nat)
  | str (s : String)
  | arr (xs : List Json)
  | obj (fields : List (String × Json))

/-! ## Identity Resolver: `get_discord_member` (src/modules/api.py) -/

/-- Environment of the identity resolver: `client.get_guild` truthiness,
the in-memory member cache `guild.get_member`, and the remote
`guild.fetch_member` call. -/
structure MemberEnv where
  guildExists : Nat → Bool
  cached : Nat → Nat → Option Member
  fetch : Nat → Nat → FetchResult

/-- The 404 raised when the guild lookup fails. -/
def guildNotFoundExc (guild_id : Nat) : HTTPExc :=
  ⟨404, s!"Discord guild not found by ID {guild_id}.", none⟩

/-- The 404 raised when the member fetch raises `discord.HTTPException`. -/
def memberNotFoundExc (user_id : Nat) : HTTPExc :=
  ⟨404, s!"Discord member not found by ID {user_id}.", none⟩

/-- Function `get_discord_member`, instrumented with the number of remote fetch calls
it issues (0 or 1).  Faithful to the source: a cache hit returns
immediately; on a cache miss the remote fetch is issued, and the
`except discord.HTTPException` clause converts each discord HTTP failure
(`discord.NotFound` included) into the 404 `HTTPException`; a failure
outside that class propagates uncaught. -/
def get_discord_member_tr (env : MemberEnv) (guild_id user_id : Nat) :
    ApiResult Member × Nat :=
  if env.guildExists guild_id then
    match env.cached guild_id user_id with
    | some m => (.ok m, 0)
    | none =>
      match env.fetch guild_id user_id with
      | .ok m => (.ok m, 1)
      | .notFound => (.httpError (memberNotFoundExc user_id), 1)
      | .httpErr => (.httpError (memberNotFoundExc user_id), 1)
      | .otherErr => (.uncaught "remote fetch failed outside discord.HTTPException", 1)
  else
    (.httpError (guildNotFoundExc guild_id), 0)

/-- Function `get_discord_member` from src/modules/api.py: cache-then-fetch member
resolution. -/
def get_discord_member (env : MemberEnv) (guild_id user_id : Nat) :
    ApiResult Member :=
  (get_discord_member_tr env guild_id user_id).1

/-! ## Scope Authorizer: `get_scopes` (src/modules/api.py) -/

/-- Accumulator loop behind `pySplit`: walks the characters, gathering the
current (reversed) token and emitting it at each whitespace run or at the
end. -/
def splitWsAux : List Char → List Char → List String
  | [], [] => []
  | [], acc => [String.mk acc.reverse]
  | c :: cs, acc =>
    if c.isWhitespace then
      match acc with
      | [] => splitWsAux cs []
      | _ => String.mk acc.reverse :: splitWsAux cs []
    else splitWsAux cs (c :: acc)

/-- Python `str.split()` with no separator: split on whitespace runs,
dropping empty pieces. -/
def pySplit (s : String) : List String :=
  splitWsAux s.data []

/-- The credential store capability: `ApiApplication.authenticate` returns
the matching application's stored scope token string, or nothing. -/
def AuthStore : Type := String → String → Option String

/-- Function `get_scopes` from src/modules/api.py: authenticate the basic-auth
credential pair; on success return `app.scopes.split()`, otherwise raise a
401 with a `WWW-Authenticate: Basic` challenge header. -/
def get_scopes (store : AuthStore) (username password : String) :
    ApiResult (List String) :=
  match store username password with
  | some scopes => .ok (pySplit scopes)
  | none => .httpError ⟨401, "Incorrect app ID or token.", some "Basic"⟩

/-! ## Tenant Gatekeeper: `get_prefix` and global checks (src/bot.py) -/

/-- An inbound chat message, reduced to its originating guild (none for a
direct message). -/
structure Message where
  guild : Option Nat
deriving DecidableEq, Repr

/-- The tenant settings capability consumed by `get_prefix`:
`settings.config` keys, the per-guild `command_prefix` setting, and the
process-wide default `command_prefix`. -/
structure TenantSettings where
  configGuilds : List Nat
  guildCmdTrigger : Nat → String
  defaultCmdTrigger : String

/-- The successful result of prefix resolution: whether the anomaly branch
logged, the always-accepted mention trigger, and the configured or fallback
text triggers (`commands.when_mentioned_or`). -/
structure PrefixOutcome where
  loggedAnomaly : Bool
  mentionAccepted : Bool
  triggers : List String
deriving DecidableEq, Repr

/-- Function `get_prefix` from src/bot.py.  A message from a configured guild gets
that guild's trigger; a message from an unconfigured guild logs an error
and gets the default; a guild-less message reaches the logging f-string,
whose `message.guild.id` access raises `AttributeError`. -/
def get_prefix (st : TenantSettings) (msg : Message) :
    Except String PrefixOutcome :=
  match msg.guild with
  | some g =>
    if st.configGuilds.contains g then
      .ok ⟨false, true, [st.guildCmdTrigger g]⟩
    else
      .ok ⟨true, true, [st.defaultCmdTrigger]⟩
  | none => .error "AttributeError: NoneType has no attribute id"

/-- A command invocation context: originating guild (none for a DM), the
rank of the invoking member's top role, and the member's identifier. -/
structure CmdCtx where
  guild : Option Nat
  authorTopRoleRank : Nat
  authorId : Nat
deriving DecidableEq, Repr

/-- Verdict of the global command checks. -/
inductive Verdict where
  | allowed
  | deniedNoGuild
  | deniedInsufficientRole
deriving DecidableEq, Repr

/-- The global checks of src/bot.py run in registration order and
short-circuit: `globally_block_dms` rejects any context without a guild,
then `is_user` enforces the minimum role rank on the designated main
server only. -/
def runChecks (mainServer minRank : Nat) (ctx : CmdCtx) : Verdict :=
  match ctx.guild with
  | none => .deniedNoGuild
  | some g =>
    if g = mainServer then
      if ctx.authorTopRoleRank < minRank then .deniedInsufficientRole
      else .allowed
    else .allowed

/-- A command is dispatched downstream only when every global check
passes. -/
def dispatched (mainServer minRank : Nat) (ctx : CmdCtx) : Bool :=
  match runChecks mainServer minRank ctx with
  | .allowed => true
  | _ => false

/-! ## Game Creation Workflow: `new_game` (src/modules/api.py) -/

/-- A persisted game record. -/
structure GameRecord where
  id : Nat
  guild_id : Nat
  name : String
  sides : List (List Member)
  is_ranked : Bool
  is_mobile : Bool
  notes : String
deriving DecidableEq, Repr

/-- True when no member appears in two distinct sides. -/
def sidesDisjoint : List (List Member) → Bool
  | [] => true
  | s :: rest =>
    rest.all (fun t => s.all (fun m => !t.contains m)) && sidesDisjoint rest

/-- Modelled from the spec: `Game.create_game` from `modules/models.py` is
not under src/ (only its caller `new_game` is).  Per §4.4 and §3 of the
specification, the persistence create validates the request shape — at
least two non-empty sides, no identity appearing in two sides, non-empty
name — raising a `ValueError` carrying a human-readable reason on
violation, and otherwise persists a `GameRecord` and returns it together
with a list of non-fatal warnings. -/
def create_game (nextId : Nat) (discord_groups : List (List Member))
    (guild_id : Nat) (name : String) (is_ranked is_mobile : Bool)
    (warnings : List String) :
    Except String (GameRecord × List String) :=
  if (discord_groups.filter (fun s => !s.isEmpty)).length < 2 then
    .error "Game requires at least two non-empty sides."
  else if !sidesDisjoint discord_groups then
    .error "A member cannot be in two sides of the same game."
  else if name = "" then
    .error "Game name cannot be blank."
  else
    .ok (⟨nextId, guild_id, name, discord_groups, is_ranked, is_mobile, ""⟩,
      warnings)

/-- The request body of `POST /game/new` (the pydantic `NewGame` model),
after validation and defaulting. -/
structure NewGame where
  game_name : String
  guild_id : Nat
  is_ranked : Bool
  is_mobile : Bool
  notes : String
  sides_discord_ids : List (List Nat)
deriving DecidableEq, Repr

/-- Pydantic parsing of a `POST /game/new` body: an omitted optional field
takes the `NewGame` class default (`is_ranked = False`, `is_mobile = True`,
`notes = ''`). -/
def NewGame.fromBody (game_name : String) (guild_id : Nat)
    (is_ranked is_mobile : Option Bool) (notes : Option String)
    (sides_discord_ids : List (List Nat)) : NewGame :=
  ⟨game_name, guild_id, is_ranked.getD false, is_mobile.getD true,
    notes.getD "", sides_discord_ids⟩

/-- The inner `for discord_id in side` loop of `new_game`: resolve one
side's members sequentially, propagating the first raised exception.
Returns the result, the number of `get_discord_member` invocations and the
number of remote fetches issued. -/
def resolveSide (env : MemberEnv) (guild_id : Nat) :
    List Nat → ApiResult (List Member) × Nat × Nat
  | [] => (.ok [], 0, 0)
  | uid :: rest =>
    match get_discord_member_tr env guild_id uid with
    | (.ok m, f) =>
      match resolveSide env guild_id rest with
      | (.ok ms, r, fs) => (.ok (m :: ms), r + 1, fs + f)
      | (.httpError e, r, fs) => (.httpError e, r + 1, fs + f)
      | (.uncaught s, r, fs) => (.uncaught s, r + 1, fs + f)
    | (.httpError e, f) => (.httpError e, 1, f)
    | (.uncaught s, f) => (.uncaught s, 1, f)

/-- The outer `for side in game.sides_discord_ids` loop of `new_game`:
side-major sequential resolution, fail-fast on the first failure. -/
def resolveSides (env : MemberEnv) (guild_id : Nat) :
    List (List Nat) → ApiResult (List (List Member)) × Nat × Nat
  | [] => (.ok [], 0, 0)
  | side :: rest =>
    match resolveSide env guild_id side with
    | (.ok ms, r, f) =>
      match resolveSides env guild_id rest with
      | (.ok sides, r', f') => (.ok (ms :: sides), r + r', f + f')
      | (.httpError e, r', f') => (.httpError e, r + r', f + f')
      | (.uncaught s, r', f') => (.uncaught s, r + r', f + f')
    | (.httpError e, r, f) => (.httpError e, r, f)
    | (.uncaught s, r, f) => (.uncaught s, r, f)

/-- The full environment of a `POST /game/new` request: credential store,
discord membership universe, the warnings the persistence create would
emit, whether the note-attach `db_game.save()` raises, and the id the
persistence layer assigns to the next created record. -/
structure ApiEnv where
  auth : AuthStore
  members : MemberEnv
  createWarnings : List String
  saveFails : Bool
  nextId : Nat

/-- Observable side effects of one `new_game` run: the records persisted in
the database at the end of the run, and how many member resolutions, remote
fetches, persistence creates and note-attach saves were issued. -/
structure RunState where
  createdGames : List GameRecord
  resolveCalls : Nat
  fetchCalls : Nat
  createCalls : Nat
  saveCalls : Nat
deriving DecidableEq, Repr

/-- The state of a run that stopped before reaching the persistence
layer. -/
def RunState.noPersist (r f : Nat) : RunState :=
  ⟨[], r, f, 0, 0⟩

/-- The `new_game` endpoint body from src/modules/api.py, after its
`get_scopes` dependency has produced `scopes`: check the `games:new`
scope, resolve every member side-major, call `Game.create_game` (a
`ValueError` becomes a 400), then — only when `game.notes` is truthy —
attach the notes with a second mutation `db_game.save()`, and answer with
`\x7b'game_id': db_game.id\x7d`. -/
def new_game (env : ApiEnv) (game : NewGame) (scopes : List String) :
    ApiResult Json × RunState :=
  if !scopes.contains "games:new" then
    (.httpError ⟨403, "Not authorised for scope games:new.", none⟩,
      RunState.noPersist 0 0)
  else
    match resolveSides env.members game.guild_id game.sides_discord_ids with
    | (.httpError e, r, f) => (.httpError e, RunState.noPersist r f)
    | (.uncaught s, r, f) => (.uncaught s, RunState.noPersist r f)
    | (.ok discord_user_sides, r, f) =>
      match create_game env.nextId discord_user_sides game.guild_id
          game.game_name game.is_ranked game.is_mobile env.createWarnings with
      | .error e => (.httpError ⟨400, e, none⟩, ⟨[], r, f, 1, 0⟩)
      | .ok (db_game, _warnings) =>
        if game.notes ≠ "" then
          if env.saveFails then
            (.uncaught "db_game.save() failed", ⟨[db_game], r, f, 1, 1⟩)
          else
            (.ok (.obj [("game_id", .num db_game.id)]),
              ⟨[{db_game with notes := game.notes}], r, f, 1, 1⟩)
        else
          (.ok (.obj [("game_id", .num db_game.id)]), ⟨[db_game], r, f, 1, 0⟩)

/-- Endpoint `POST /game/new` as served: FastAPI resolves the `get_scopes`
dependency first, so an authentication failure raises before the endpoint
body runs. -/
def new_game_endpoint (env : ApiEnv) (username password : String)
    (game : NewGame) : ApiResult Json × RunState :=
  match get_scopes env.auth username password with
  | .ok scopes => new_game env game scopes
  | .httpError e => (.httpError e, RunState.noPersist 0 0)
  | .uncaught s => (.uncaught s, RunState.noPersist 0 0)

/-- The read-side database capability: `DiscordMember.get_or_none` together
with the member's `as_json(include_games=...)`, and `Game.get_or_none`
together with the game's `as_json()`. -/
structure ReadDb where
  userJson : Nat → Option (Bool → Json)
  gameJson : Nat → Option Json

/-- The `GET /users/\x7bdiscord_id\x7d` endpoint from src/modules/api.py. -/
def get_user (store : AuthStore) (db : ReadDb) (username password : String)
    (discord_id : Nat) : ApiResult Json :=
  match get_scopes store username password with
  | .httpError e => .httpError e
  | .uncaught s => .uncaught s
  | .ok scopes =>
    if !scopes.contains "users:read" then
      .httpError ⟨403, "Not authorised for scope users:read.", none⟩
    else
      match db.userJson discord_id with
      | some asJson => .ok (asJson (scopes.contains "games:read"))
      | none => .httpError ⟨404, "User not found.", none⟩

/-- The `GET /games/\x7bgame_id\x7d` endpoint from src/modules/api.py. -/
def get_game (store : AuthStore) (db : ReadDb) (username password : String)
    (game_id : Nat) : ApiResult Json :=
  match get_scopes store username password with
  | .httpError e => .httpError e
  | .uncaught s => .uncaught s
  | .ok scopes =>
    if !scopes.contains "games:read" then
      .httpError ⟨403, "Not authorised for scope games:read.", none⟩
    else
      match db.gameJson game_id with
      | some j => .ok j
      | none => .httpError ⟨404, "Game not found.", none⟩

/-! ## Error/Outcome Reporter: `on_command_error` (src/bot.py) -/

/-- The exception classes distinguished by `on_command_error`:
the ignored tuple (`CommandNotFound`, `UserInputError`, `CheckFailure`) and
everything else, each carrying its `str(exc)` text. -/
inductive CmdExc where
  | commandNotFound (msg : String)
  | userInputError (msg : String)
  | checkFailure (msg : String)
  | other (msg : String)
deriving DecidableEq, Repr

/-- What `on_command_error` sends to the invoking channel. -/
inductive ErrorReply where
  | noReply
  | reply (text : String)
deriving DecidableEq, Repr

/-- Handler `on_command_error` from src/bot.py: a command with a local handler is
left alone; exceptions in the ignored tuple are logged and produce no
reply; everything else is logged at critical severity and answered with
`f'Unhandled error: \x7bexc\x7d'`. -/
def on_command_error (hasLocalHandler : Bool) (exc : CmdExc) : ErrorReply :=
  if hasLocalHandler then .noReply
  else
    match exc with
    | .commandNotFound _ => .noReply
    | .userInputError _ => .noReply
    | .checkFailure _ => .noReply
    | .other msg => .reply ("Unhandled error: " ++ msg)

/-! ## Concrete fixtures used to instantiate the theorems -/

/-- A credential store holding a single application `app1` / `secret1` with
the given stored scope token string. -/
def authApp1 (scopes : String) : AuthStore :=
  fun u p => if u = "app1" then if p = "secret1" then some scopes else none
    else none

/-- A membership universe where every guild exists, the cache is empty and
every remote fetch succeeds. -/
def memberEnvOk : MemberEnv :=
  ⟨fun _ => true, fun _ _ => none, fun _ u => .ok ⟨u⟩⟩

/-- A membership universe whose remote fetch fails with a transient discord
HTTP error (e.g. a 503). -/
def memberEnvTransient : MemberEnv :=
  ⟨fun _ => true, fun _ _ => none, fun _ _ => .httpErr⟩

/-- A membership universe whose remote fetch reports the member does not
exist (`discord.NotFound`). -/
def memberEnvMissing : MemberEnv :=
  ⟨fun _ => true, fun _ _ => none, fun _ _ => .notFound⟩

/-- A membership universe whose remote fetch fails outside the
`discord.HTTPException` class. -/
def memberEnvBroken : MemberEnv :=
  ⟨fun _ => true, fun _ _ => none, fun _ _ => .otherErr⟩

/-- A full API environment over `authApp1` and `memberEnvOk`. -/
def apiEnvWith (scopes : String) (w : List String) (sf : Bool) : ApiEnv :=
  ⟨authApp1 scopes, memberEnvOk, w, sf, 0⟩

/-- An empty read-side database. -/
def readDbEmpty : ReadDb :=
  ⟨fun _ => none, fun _ => none⟩

/-- A game request with a single one-member side (an invalid shape). -/
def reqOneSide : NewGame :=
  NewGame.fromBody "mygame" 1 none none none [[5]]

/-- A valid two-sided game request with no note. -/
def reqTwoSides : NewGame :=
  NewGame.fromBody "mygame" 1 none none none [[1], [2]]

/-- A valid two-sided game request carrying a free-text note. -/
def reqTwoSidesNotes : NewGame :=
  NewGame.fromBody "mygame" 1 none none (some "a note") [[1], [2]]

/-! ## Helper lemmas -/

/-- Two lists with the same element set agree on `contains` at every
key. -/
theorem contains_eq_of_toFinset_eq (l₁ l₂ : List String)
    (h : l₁.toFinset = l₂.toFinset) (a : String) :
    l₁.contains a = l₂.contains a := by
  have h1 : a ∈ l₁ ↔ a ∈ l₂ := by
    rw [← List.mem_toFinset, ← List.mem_toFinset, h]
  change List.elem a l₁ = List.elem a l₂
  rw [List.elem_eq_mem, List.elem_eq_mem]
  simp [h1]

/-- Whether an authorization outcome grants one scope token: the membership
test the endpoints perform on the result of `get_scopes`. -/
def hasScope (r : ApiResult (List String)) (tok : String) : Bool :=
  match r with
  | .ok scopes => scopes.contains tok
  | .httpError _ => false
  | .uncaught _ => false

/-- The warnings argument only flows into the second component of a
successful `create_game` result. -/
theorem create_game_eq_map (nextId : Nat) (groups : List (List Member))
    (gid : Nat) (name : String) (ir im : Bool) (w : List String) :
    create_game nextId groups gid name ir im w =
      (create_game nextId groups gid name ir im []).map (fun x => (x.1, w)) := by
  unfold create_game
  split
  · rfl
  · split
    · rfl
    · split
      · rfl
      · rfl

/-- A `new_game` run on a request with no note never reaches the
note-attach mutation. -/
theorem new_game_no_note_no_save (env : ApiEnv) (game : NewGame)
    (scopes : List String) (h : game.notes = "") :
    (new_game env game scopes).2.saveCalls = 0 := by
  unfold new_game
  split
  · rfl
  · split
    · rfl
    · rfl
    · split
      · rfl
      · rw [if_neg (by simp [h])]

/-- Endpoint version of `new_game_no_note_no_save`. -/
theorem endpoint_no_note_no_save (env : ApiEnv) (u p : String)
    (game : NewGame) (h : game.notes = "") :
    (new_game_endpoint env u p game).2.saveCalls = 0 := by
  unfold new_game_endpoint
  split
  · exact new_game_no_note_no_save env game _ h
  · rfl
  · rfl

/-! ## Claims -/

/-- C3 counterexample: a remote member fetch failing transiently (a discord
HTTP error that is not `NotFound`) produces exactly the same outcome as a
missing member — the 404 member-not-found `HTTPException` — so the claimed
distinct `TransientError` outcome does not exist in the code. -/
theorem C3_counterexample :
    get_discord_member memberEnvTransient 1 2 =
      get_discord_member memberEnvMissing 1 2 ∧
    get_discord_member memberEnvTransient 1 2 =
      .httpError (memberNotFoundExc 2) :=
  ⟨rfl, rfl⟩

/-- C3 (amended): on a cache miss, every remote fetch failure in the
`discord.HTTPException` class — the member-missing case and any other
discord HTTP failure, transient ones included — is mapped to the same 404
member-not-found outcome; only a failure outside that class surfaces
distinctly, as an uncaught exception. -/
theorem C3_http_failures_conflated (env : MemberEnv) (g u : Nat)
    (hg : env.guildExists g = true) (hc : env.cached g u = none) :
    (env.fetch g u = .httpErr →
      get_discord_member env g u = .httpError (memberNotFoundExc u)) ∧
    (env.fetch g u = .notFound →
      get_discord_member env g u = .httpError (memberNotFoundExc u)) ∧
    (env.fetch g u = .otherErr →
      get_discord_member env g u =
        .uncaught "remote fetch failed outside discord.HTTPException") := by
  refine ⟨fun h => ?_, fun h => ?_, fun h => ?_⟩ <;>
    simp [get_discord_member, get_discord_member_tr, hg, hc, h]

/-- C3 witness: the three fetch-failure modes evaluated on concrete
environments. -/
theorem C3_http_failures_conflated_witness :
    get_discord_member memberEnvTransient 3 4 =
      .httpError (memberNotFoundExc 4) ∧
    get_discord_member memberEnvMissing 3 4 =
      .httpError (memberNotFoundExc 4) ∧
    get_discord_member memberEnvBroken 3 4 =
      .uncaught "remote fetch failed outside discord.HTTPException" :=
  ⟨(C3_http_failures_conflated memberEnvTransient 3 4 rfl rfl).1 rfl,
   (C3_http_failures_conflated memberEnvMissing 3 4 rfl rfl).2.1 rfl,
   (C3_http_failures_conflated memberEnvBroken 3 4 rfl rfl).2.2 rfl⟩

/-- C6 counterexample: an exception outside the ignored classes whose text
is internal detail is echoed verbatim into the channel reply, so the reply
is not a generic message free of raw internal error text. -/
theorem C6_counterexample :
    on_command_error false (.other "connection to db at 10.0.0.5 refused") =
      .reply ("Unhandled error: " ++ "connection to db at 10.0.0.5 refused") :=
  rfl

/-- C6 (amended): for every exception outside the user-ignorable classes
(and with no local handler), the reply sent to the invoking channel is the
string "Unhandled error: " concatenated with the exception's own text, so
raw internal error text is included in the reply; the ignored classes and
locally handled commands produce no reply. -/
theorem C6_reply_embeds_exception_text (msg : String) :
    on_command_error false (.other msg) =
      .reply ("Unhandled error: " ++ msg) ∧
    on_command_error false (.commandNotFound msg) = .noReply ∧
    on_command_error false (.userInputError msg) = .noReply ∧
    on_command_error false (.checkFailure msg) = .noReply ∧
    on_command_error true (.other msg) = .noReply :=
  ⟨rfl, rfl, rfl, rfl, rfl⟩

/-- C7: for every message from a guild whose identifier is not in
`settings.config`, `get_prefix` takes the logging fallback branch and
returns the default command trigger together with the always-accepted
mention trigger, without raising. -/
theorem C7_unknown_tenant_fail_open (st : TenantSettings) (g : Nat)
    (h : st.configGuilds.contains g = false) :
    get_prefix st ⟨some g⟩ = .ok ⟨true, true, [st.defaultCmdTrigger]⟩ := by
  show (if st.configGuilds.contains g = true then
      (Except.ok ⟨false, true, [st.guildCmdTrigger g]⟩ :
        Except String PrefixOutcome)
    else .ok ⟨true, true, [st.defaultCmdTrigger]⟩) =
    .ok ⟨true, true, [st.defaultCmdTrigger]⟩
  rw [if_neg (fun hc => Bool.false_ne_true (h ▸ hc))]

/-- C7 witness: a guild id outside a concrete one-tenant config store. -/
theorem C7_unknown_tenant_fail_open_witness :
    (TenantSettings.mk [1] (fun _ => "$") "!").configGuilds.contains 2 =
      false ∧
    get_prefix (TenantSettings.mk [1] (fun _ => "$") "!") ⟨some 2⟩ =
      .ok ⟨true, true, ["!"]⟩ :=
  ⟨by decide, C7_unknown_tenant_fail_open _ 2 (by decide)⟩

/-- C8: a command context without a guild (a bare direct message) is
rejected by `globally_block_dms` with the no-guild verdict regardless of
the invoking member's role rank or identity, and is never dispatched
downstream. -/
theorem C8_dm_denied_no_guild (mainServer minRank rank uid : Nat) :
    runChecks mainServer minRank ⟨none, rank, uid⟩ = .deniedNoGuild ∧
    dispatched mainServer minRank ⟨none, rank, uid⟩ = false :=
  ⟨rfl, rfl⟩

/-- C9 counterexample: two stored scope token strings differing only in
token order yield different results from `get_scopes` — the scopes are
returned as an ordered list (`str.split()`), not parsed into a set. -/
theorem C9_counterexample :
    get_scopes (fun _ _ => some "games:new games:read") "app1" "secret1" =
      .ok ["games:new", "games:read"] ∧
    get_scopes (fun _ _ => some "games:read games:new") "app1" "secret1" =
      .ok ["games:read", "games:new"] ∧
    (["games:new", "games:read"] : List String) ≠
      ["games:read", "games:new"] :=
  ⟨rfl, rfl, by decide⟩

/-- C9 (amended): `get_scopes` returns the whitespace-delimited token
string split into an ordered list, with duplicates kept and order
preserved, rather than a set; however, two stored token strings whose
token sets are equal grant exactly the same scopes, so every per-operation
scope decision is insensitive to token order and duplication. -/
theorem C9_scope_decisions_order_insensitive (store₁ store₂ : AuthStore)
    (u p s₁ s₂ tok : String)
    (h₁ : store₁ u p = some s₁) (h₂ : store₂ u p = some s₂)
    (hset : (pySplit s₁).toFinset = (pySplit s₂).toFinset) :
    hasScope (get_scopes store₁ u p) tok =
      hasScope (get_scopes store₂ u p) tok := by
  simp only [get_scopes, h₁, h₂, hasScope]
  exact contains_eq_of_toFinset_eq _ _ hset tok

/-- C9 witness: a duplicated, reordered stored string decides the token
`a` the same way as its deduplicated reordering. -/
theorem C9_scope_decisions_order_insensitive_witness :
    hasScope (get_scopes (fun _ _ => some "a b b") "u" "p") "a" =
      hasScope (get_scopes (fun _ _ => some "b a") "u" "p") "a" :=
  C9_scope_decisions_order_insensitive (fun _ _ => some "a b b")
    (fun _ _ => some "b a") "u" "p" "a b b" "b a" "a" rfl rfl (by decide)

/-- C10: a `POST /game/new` body with the optional fields omitted gets the
pydantic defaults — `is_ranked = false`, `is_mobile = true`, `notes = ""` —
and a run of the endpoint on such a request performs no note-attach
mutation. -/
theorem C10_defaults_applied (game_name : String) (guild_id : Nat)
    (sides : List (List Nat)) (env : ApiEnv) (u p : String) :
    (NewGame.fromBody game_name guild_id none none none sides).is_ranked =
      false ∧
    (NewGame.fromBody game_name guild_id none none none sides).is_mobile =
      true ∧
    (NewGame.fromBody game_name guild_id none none none sides).notes = "" ∧
    (new_game_endpoint env u p
      (NewGame.fromBody game_name guild_id none none none sides)).2.saveCalls
      = 0 :=
  ⟨rfl, rfl, rfl, endpoint_no_note_no_save env u p _ rfl⟩

/-- C1 counterexample: a request with a single non-empty side (an invalid
shape) does get a 400 validation error, but only after a remote member
fetch has been issued (`fetchCalls = 1`) and the persistence create has
been invoked (`createCalls = 1`) — the precondition checks do not run
before identity resolution, and resolution calls are not zero. -/
theorem C1_counterexample :
    new_game_endpoint (apiEnvWith "games:new" [] false) "app1" "secret1"
      reqOneSide =
    (.httpError ⟨400, "Game requires at least two non-empty sides.", none⟩,
     ⟨[], 1, 1, 1, 0⟩) :=
  rfl

/-- C1 (amended): a GameRequest that violates a shape precondition and
whose identities all resolve yields a `ValidationError` (HTTP 400 carrying
the reason raised as a `ValueError` by the persistence create) with no
GameRecord persisted and no note mutation; but identity resolution runs
first, so remote member fetches may be issued before the checks, and the
validation happens inside the (single) persistence create call rather than
before it. -/
theorem C1_validation_after_resolution (env : ApiEnv)
    (u p s reason : String) (game : NewGame) (groups : List (List Member))
    (r f : Nat)
    (ha : env.auth u p = some s)
    (hs : (pySplit s).contains "games:new" = true)
    (hr : resolveSides env.members game.guild_id game.sides_discord_ids =
      (.ok groups, r, f))
    (hv : create_game env.nextId groups game.guild_id game.game_name
      game.is_ranked game.is_mobile env.createWarnings = .error reason) :
    new_game_endpoint env u p game =
      (.httpError ⟨400, reason, none⟩, ⟨[], r, f, 1, 0⟩) := by
  have hm : "games:new" ∈ pySplit s := by simpa using hs
  simp [new_game_endpoint, get_scopes, ha, new_game, hm, hr, hv]

/-- C1 witness: the amended statement applied to the concrete one-sided
request. -/
theorem C1_validation_after_resolution_witness :
    new_game_endpoint (apiEnvWith "games:new" [] false) "app1" "secret1"
      reqOneSide =
    (.httpError ⟨400, "Game requires at least two non-empty sides.", none⟩,
     ⟨[], 1, 1, 1, 0⟩) :=
  C1_validation_after_resolution (apiEnvWith "games:new" [] false) "app1"
    "secret1" "games:new" "Game requires at least two non-empty sides."
    reqOneSide [[⟨5⟩]] 1 1 rfl rfl rfl rfl

/-- C2: a credential pair absent from the store makes every operation
return 401 with a `WWW-Authenticate: Basic` challenge, while a valid
credential whose scope list lacks `games:new` makes `POST /game/new`
return 403 — not 401 — with no GameRecord created. -/
theorem C2_auth_before_scope (store : AuthStore) (db : ReadDb)
    (env : ApiEnv) (u p : String) (did gid : Nat) (game : NewGame) :
    (store u p = none →
      get_user store db u p did =
        .httpError ⟨401, "Incorrect app ID or token.", some "Basic"⟩ ∧
      get_game store db u p gid =
        .httpError ⟨401, "Incorrect app ID or token.", some "Basic"⟩) ∧
    (env.auth u p = none →
      new_game_endpoint env u p game =
        (.httpError ⟨401, "Incorrect app ID or token.", some "Basic"⟩,
         RunState.noPersist 0 0)) ∧
    (∀ s, store u p = some s →
      (pySplit s).contains "users:read" = false →
      get_user store db u p did =
        .httpError ⟨403, "Not authorised for scope users:read.", none⟩) ∧
    (∀ s, store u p = some s →
      (pySplit s).contains "games:read" = false →
      get_game store db u p gid =
        .httpError ⟨403, "Not authorised for scope games:read.", none⟩) ∧
    (∀ s, env.auth u p = some s →
      (pySplit s).contains "games:new" = false →
      (new_game_endpoint env u p game).1 =
        .httpError ⟨403, "Not authorised for scope games:new.", none⟩ ∧
      (new_game_endpoint env u p game).2.createdGames = []) := by
  refine ⟨fun h => ⟨?_, ?_⟩, fun h => ?_, fun s hs hc => ?_, fun s hs hc => ?_,
    fun s hs hc => ⟨?_, ?_⟩⟩
  · simp [get_user, get_scopes, h]
  · simp [get_game, get_scopes, h]
  · simp [new_game_endpoint, get_scopes, h]
  · have hm : "users:read" ∉ pySplit s := by simpa using hc
    simp [get_user, get_scopes, hs, hm]
  · have hm : "games:read" ∉ pySplit s := by simpa using hc
    simp [get_game, get_scopes, hs, hm]
  · have hm : "games:new" ∉ pySplit s := by simpa using hc
    simp [new_game_endpoint, get_scopes, hs, new_game, hm]
  · have hm : "games:new" ∉ pySplit s := by simpa using hc
    simp [new_game_endpoint, get_scopes, hs, new_game, hm,
      RunState.noPersist]

/-- C2 witness: an unknown credential against an empty store, and the
stored-scopes-`games:read`-only credential attempting `POST /game/new`. -/
theorem C2_auth_before_scope_witness :
    get_user (fun _ _ => none) readDbEmpty "u" "p" 3 =
      .httpError ⟨401, "Incorrect app ID or token.", some "Basic"⟩ ∧
    get_user (authApp1 "games:new") readDbEmpty "app1" "secret1" 3 =
      .httpError ⟨403, "Not authorised for scope users:read.", none⟩ ∧
    get_game (authApp1 "games:new") readDbEmpty "app1" "secret1" 4 =
      .httpError ⟨403, "Not authorised for scope games:read.", none⟩ ∧
    (new_game_endpoint (apiEnvWith "games:read" [] false) "app1" "secret1"
      reqTwoSides).1 =
      .httpError ⟨403, "Not authorised for scope games:new.", none⟩ ∧
    (new_game_endpoint (apiEnvWith "games:read" [] false) "app1" "secret1"
      reqTwoSides).2.createdGames = [] := by
  refine ⟨((C2_auth_before_scope (fun _ _ => none) readDbEmpty
    (apiEnvWith "games:read" [] false) "u" "p" 3 4 reqTwoSides).1 rfl).1,
    ?_, ?_, ?_, ?_⟩
  · exact (C2_auth_before_scope (authApp1 "games:new") readDbEmpty
      (apiEnvWith "games:read" [] false) "app1" "secret1" 3 4
      reqTwoSides).2.2.1 "games:new" rfl rfl
  · exact (C2_auth_before_scope (authApp1 "games:new") readDbEmpty
      (apiEnvWith "games:read" [] false) "app1" "secret1" 3 4
      reqTwoSides).2.2.2.1 "games:new" rfl rfl
  · exact ((C2_auth_before_scope (fun _ _ => none) readDbEmpty
      (apiEnvWith "games:read" [] false) "app1" "secret1" 3 4
      reqTwoSides).2.2.2.2 "games:read" rfl rfl).1
  · exact ((C2_auth_before_scope (fun _ _ => none) readDbEmpty
      (apiEnvWith "games:read" [] false) "app1" "secret1" 3 4
      reqTwoSides).2.2.2.2 "games:read" rfl rfl).2

/-- Warnings emitted by the persistence create do not influence a
`new_game` run at all: neither the response nor the observable side
effects mention them. -/
theorem new_game_warnings_irrelevant (auth : AuthStore) (members : MemberEnv)
    (sf : Bool) (nid : Nat) (w1 w2 : List String) (game : NewGame)
    (scopes : List String) :
    new_game ⟨auth, members, w1, sf, nid⟩ game scopes =
      new_game ⟨auth, members, w2, sf, nid⟩ game scopes := by
  unfold new_game
  cases hb : scopes.contains "games:new" with
  | false => rfl
  | true =>
    simp only [hb, Bool.not_true]
    rw [if_neg Bool.false_ne_true, if_neg Bool.false_ne_true]
    cases hr : resolveSides members game.guild_id game.sides_discord_ids with
    | mk res rest =>
      cases rest with
      | mk r f =>
        cases res with
        | httpError e => rfl
        | uncaught s => rfl
        | ok groups =>
          simp only []
          rw [create_game_eq_map nid groups game.guild_id game.game_name
            game.is_ranked game.is_mobile w1,
            create_game_eq_map nid groups game.guild_id game.game_name
            game.is_ranked game.is_mobile w2]
          cases hc : create_game nid groups game.guild_id game.game_name
              game.is_ranked game.is_mobile [] with
          | error e => rfl
          | ok x => rfl

/-- Every successful `new_game` response is an object with a single
`game_id` field. -/
theorem new_game_ok_shape (env : ApiEnv) (game : NewGame)
    (scopes : List String) (j : Json)
    (h : (new_game env game scopes).1 = .ok j) :
    ∃ n, j = .obj [("game_id", .num n)] := by
  unfold new_game at h
  split at h
  · simp at h
  · split at h
    · simp at h
    · simp at h
    · split at h
      · simp at h
      · split at h
        · split at h
          · simp at h
          · simp at h
            exact ⟨_, h.symm⟩
        · simp at h
          exact ⟨_, h.symm⟩

/-- C4 counterexample: with the persistence create emitting the warning
"duplicate historical matchup", the API response is `\x7b'game_id': 0\x7d`
alone — identical to the response of a warning-free run — so the warnings
are not returned to the caller alongside the result. -/
theorem C4_counterexample :
    (new_game_endpoint
      (apiEnvWith "games:new" ["duplicate historical matchup"] false)
      "app1" "secret1" reqTwoSides).1 = .ok (.obj [("game_id", .num 0)]) ∧
    (new_game_endpoint (apiEnvWith "games:new" [] false)
      "app1" "secret1" reqTwoSides).1 = .ok (.obj [("game_id", .num 0)]) :=
  ⟨rfl, rfl⟩

/-- C4 (amended): the warnings returned by the persistence create are
bound to `_warnings` and discarded — the API response is unaffected by
them, and every successful response is `\x7b'game_id': id\x7d` with no
warnings included. -/
theorem C4_warnings_discarded (auth : AuthStore) (members : MemberEnv)
    (sf : Bool) (nid : Nat) (w1 w2 : List String) (u p : String)
    (game : NewGame) :
    (new_game_endpoint ⟨auth, members, w1, sf, nid⟩ u p game).1 =
      (new_game_endpoint ⟨auth, members, w2, sf, nid⟩ u p game).1 ∧
    (∀ j,
      (new_game_endpoint ⟨auth, members, w1, sf, nid⟩ u p game).1 = .ok j →
      ∃ n, j = .obj [("game_id", .num n)]) := by
  constructor
  · unfold new_game_endpoint
    cases hg : get_scopes auth u p with
    | ok scopes =>
      exact congrArg Prod.fst
        (new_game_warnings_irrelevant auth members sf nid w1 w2 game scopes)
    | httpError e => rfl
    | uncaught s => rfl
  · intro j
    unfold new_game_endpoint
    cases hg : get_scopes auth u p with
    | ok scopes => exact fun hj => new_game_ok_shape _ game scopes j hj
    | httpError e => intro hj; simp at hj
    | uncaught s => intro hj; simp at hj

/-- C4 witness: the amended statement evaluated at a concrete
warning-emitting run. -/
theorem C4_warnings_discarded_witness :
    (new_game_endpoint
      ⟨authApp1 "games:new", memberEnvOk, ["side imbalance"], false, 0⟩
      "app1" "secret1" reqTwoSides).1 =
      (new_game_endpoint ⟨authApp1 "games:new", memberEnvOk, [], false, 0⟩
      "app1" "secret1" reqTwoSides).1 ∧
    ∃ n, Json.obj [("game_id", Json.num 0)] = .obj [("game_id", .num n)] := by
  have h := C4_warnings_discarded (authApp1 "games:new") memberEnvOk false 0
    ["side imbalance"] [] "app1" "secret1" reqTwoSides
  exact ⟨h.1, h.2 (Json.obj [("game_id", Json.num 0)]) rfl⟩

/-- C5 counterexample: when the note-attach `db_game.save()` fails, the
run ends in an uncaught exception (surfaced as a 500 error), not in a
success carrying a non-fatal warning; the created record stays persisted
(with its notes unattached). -/
theorem C5_counterexample :
    new_game_endpoint (apiEnvWith "games:new" [] true) "app1" "secret1"
      reqTwoSidesNotes =
    (.uncaught "db_game.save() failed",
     ⟨[⟨0, 1, "mygame", [[⟨1⟩], [⟨2⟩]], false, true, ""⟩], 2, 2, 1, 1⟩) :=
  rfl

/-- C5 (amended): a supplied note is attached by a second, separate
mutation after the initial create (create then update, in that order), and
a failure of that second mutation does not roll back the already-created
GameRecord — but the failure propagates as an unhandled error (HTTP 500)
rather than being reported to the caller as a non-fatal warning. -/
theorem C5_note_failure_not_warning (env : ApiEnv) (u p s : String)
    (game : NewGame) (groups : List (List Member)) (r f : Nat)
    (rec : GameRecord) (w : List String)
    (ha : env.auth u p = some s)
    (hs : (pySplit s).contains "games:new" = true)
    (hr : resolveSides env.members game.guild_id game.sides_discord_ids =
      (.ok groups, r, f))
    (hc : create_game env.nextId groups game.guild_id game.game_name
      game.is_ranked game.is_mobile env.createWarnings = .ok (rec, w))
    (hn : game.notes ≠ "") :
    (env.saveFails = true →
      new_game_endpoint env u p game =
        (.uncaught "db_game.save() failed", ⟨[rec], r, f, 1, 1⟩)) ∧
    (env.saveFails = false →
      new_game_endpoint env u p game =
        (.ok (.obj [("game_id", .num rec.id)]),
         ⟨[{rec with notes := game.notes}], r, f, 1, 1⟩)) := by
  have hm : "games:new" ∈ pySplit s := by simpa using hs
  constructor <;> intro hsf <;>
    simp [new_game_endpoint, get_scopes, ha, new_game, hm, hr, hc, hn, hsf]

/-- C5 witness: the amended statement at a concrete noted request, once
with a failing save and once with a succeeding one. -/
theorem C5_note_failure_not_warning_witness :
    new_game_endpoint (apiEnvWith "games:new" [] true) "app1" "secret1"
      reqTwoSidesNotes =
      (.uncaught "db_game.save() failed",
       ⟨[⟨0, 1, "mygame", [[⟨1⟩], [⟨2⟩]], false, true, ""⟩], 2, 2, 1, 1⟩) ∧
    new_game_endpoint (apiEnvWith "games:new" [] false) "app1" "secret1"
      reqTwoSidesNotes =
      (.ok (.obj [("game_id", .num 0)]),
       ⟨[⟨0, 1, "mygame", [[⟨1⟩], [⟨2⟩]], false, true, "a note"⟩],
        2, 2, 1, 1⟩) :=
  ⟨(C5_note_failure_not_warning (apiEnvWith "games:new" [] true) "app1"
      "secret1" "games:new" reqTwoSidesNotes [[⟨1⟩], [⟨2⟩]] 2 2
      ⟨0, 1, "mygame", [[⟨1⟩], [⟨2⟩]], false, true, ""⟩ []
      rfl rfl rfl rfl (by decide)).1 rfl,
   (C5_note_failure_not_warning (apiEnvWith "games:new" [] false) "app1"
      "secret1" "games:new" reqTwoSidesNotes [[⟨1⟩], [⟨2⟩]] 2 2
      ⟨0, 1, "mygame", [[⟨1⟩], [⟨2⟩]], false, true, ""⟩ []
      rfl rfl rfl rfl (by decide)).2 rfl⟩

end Polybot
